import Mathlib

/-!
Verification development for the deadline-driven task lifecycle of the
Personal-Task-Manager repository.

The definitions below are a shallow embedding of the server-side task
state machine (`controllers/tasks` and `models/Task`), the natural-language
time parser (`utils/timeParser.ts`), the reminder job scheduler
(`jobs/taskJobs`), and the client-side time reconciliation hook
(`useTimeSync`).  Timestamps are modelled as epoch milliseconds (`Int`);
JavaScript number arithmetic on durations coming out of the parser is
modelled with `ℚ` (exact for every value these code paths produce);
`Math.floor(x / 1000)` on a possibly negative integer difference is `Int.fdiv`.
-/

deriving instance DecidableEq for Except

namespace TaskManager

/-- Task status enum of `models/Task`: `'ongoing' | 'completed' | 'given_up' | 'paused'`. -/
inductive TaskStatus
  | ongoing
  | paused
  | completed
  | given_up
deriving DecidableEq, Repr

/-- History action enum of `models/Task` (`ITaskHistory.action`). -/
inductive HistAction
  | created
  | started
  | paused
  | resumed
  | completed
  | given_up
  | snoozed
deriving DecidableEq, Repr

/-- One entry of a task's append-only history array (`ITaskHistory`).
The source fields `by` and `at` are renamed `byUser` and `atTime` (Lean keywords). -/
structure HistoryEntry where
  action : HistAction
  byUser : String
  atTime : Int
  reason : Option String := none
  previousStatus : Option TaskStatus := none
deriving DecidableEq, Repr

/-- The task document of `models/Task` (fields relevant to the lifecycle core).
Dates are epoch ms; `originalDuration` is a JS number (seconds, possibly
fractional out of the parser), so it is `ℚ`. Defaults mirror the schema
defaults (`status: 'ongoing'`, `timeSpentSeconds: 0`, `pausedDuration: 0`,
`canPause/canSnooze: false`, empty history before the pre-save hook runs). -/
structure Task where
  userId : String
  title : String := ""
  description : Option String := none
  status : TaskStatus := TaskStatus.ongoing
  priority : String := "medium"
  tags : List String := []
  startsAt : Int
  endsAt : Int
  originalDuration : ℚ
  timeSpentSeconds : Int := 0
  canPause : Bool := false
  canSnooze : Bool := false
  pausedAt : Option Int := none
  pausedDuration : Int := 0
  snoozeUntil : Option Int := none
  history : List HistoryEntry := []
deriving DecidableEq, Repr

/-- `new Task({...})` followed by `save()`: the pre-save hook pushes the
`created` history entry; `startsAt` defaults to `Date.now()`. -/
def newTask (uid : String) (now : Int) (endsAt : Int) (originalDuration : ℚ)
    (canPause canSnooze : Bool) : Task :=
  { userId := uid, startsAt := now, endsAt := endsAt,
    originalDuration := originalDuration,
    canPause := canPause, canSnooze := canSnooze,
    history := [{ action := HistAction.created, byUser := uid, atTime := now }] }

/-- `calculateActualTimeSpent` of `controllers/tasks`: committed seconds plus,
for an ongoing non-paused task, the current session time
`Math.floor((now − sessionStart)/1000)` minus `pausedDuration`, clamped to ≥ 0.
(`sessionStart` is `task.startsAt || task.createdAt`; `startsAt` is always
set by the schema default.) -/
def calculateActualTimeSpent (now : Int) (t : Task) : Int :=
  let totalSpent := t.timeSpentSeconds
  let totalSpent :=
    if t.status = TaskStatus.ongoing ∧ t.pausedAt = none then
      totalSpent + ((now - t.startsAt).fdiv 1000 - t.pausedDuration)
    else totalSpent
  max 0 totalSpent

/-- The mongoose `save()` of `completeTask` as seen by the stored document:
`$set` of `status`, `pausedAt`, `timeSpentSeconds` (computed from the
request's snapshot) and `$push` of the `completed` history entry onto the
currently stored history. When the stored document equals the snapshot this
is exactly the sequential update. -/
def completeWriteEntry (now : Int) (uid : String) (reason : Option String)
    (snapshot current : Task) : Task :=
  { current with
    status := TaskStatus.completed,
    pausedAt := none,
    timeSpentSeconds := calculateActualTimeSpent now snapshot,
    history := current.history ++
      [{ action := HistAction.completed, byUser := uid, atTime := now,
         reason := reason, previousStatus := some snapshot.status }] }

/-- In-memory document mutation performed by `completeTask` on the task it
read: time spent committed, status `completed`, `pausedAt` cleared, one
`completed` history entry appended (with `previousStatus` captured before
the change). -/
def completeCore (now : Int) (uid : String) (reason : Option String) (t : Task) : Task :=
  completeWriteEntry now uid reason t t

/-- Document-level `completeTask` (after the `findOne` lookup): the guard
`status !== 'ongoing' && status !== 'paused'` fails with
`'Task is not active'`, otherwise the mutation applies. -/
def completeDoc (now : Int) (uid : String) (reason : Option String) (t : Task) :
    Except String Task :=
  if t.status ≠ TaskStatus.ongoing ∧ t.status ≠ TaskStatus.paused then
    Except.error "Task is not active"
  else
    Except.ok (completeCore now uid reason t)

/-- In-memory mutation of `giveUpTask`: like complete but status `given_up`. -/
def giveUpCore (now : Int) (uid : String) (reason : Option String) (t : Task) : Task :=
  { t with
    status := TaskStatus.given_up,
    pausedAt := none,
    timeSpentSeconds := calculateActualTimeSpent now t,
    history := t.history ++
      [{ action := HistAction.given_up, byUser := uid, atTime := now,
         reason := reason, previousStatus := some t.status }] }

/-- Document-level `giveUpTask` guard and mutation. -/
def giveUpDoc (now : Int) (uid : String) (reason : Option String) (t : Task) :
    Except String Task :=
  if t.status ≠ TaskStatus.ongoing ∧ t.status ≠ TaskStatus.paused then
    Except.error "Task is not active"
  else
    Except.ok (giveUpCore now uid reason t)

/-- In-memory mutation of `pauseTask`: status `paused`, `pausedAt := now`,
one `paused` history entry. -/
def pauseCore (now : Int) (uid : String) (t : Task) : Task :=
  { t with
    status := TaskStatus.paused,
    pausedAt := some now,
    history := t.history ++
      [{ action := HistAction.paused, byUser := uid, atTime := now,
         reason := none, previousStatus := some t.status }] }

/-- Document-level `pauseTask`: requires status `ongoing` and the `canPause`
capability. -/
def pauseDoc (now : Int) (uid : String) (t : Task) : Except String Task :=
  if t.status ≠ TaskStatus.ongoing then Except.error "Task is not ongoing"
  else if ¬ t.canPause then Except.error "Task cannot be paused"
  else Except.ok (pauseCore now uid t)

/-- In-memory mutation of `resumeTask`: adds
`Math.floor((now − pausedAt)/1000)` to `pausedDuration`, returns to
`ongoing`, clears `pausedAt`, appends a `resumed` entry. -/
def resumeCore (now : Int) (uid : String) (t : Task) : Task :=
  let pauseDuration :=
    match t.pausedAt with
    | some p => (now - p).fdiv 1000
    | none => 0
  { t with
    pausedDuration := t.pausedDuration + pauseDuration,
    status := TaskStatus.ongoing,
    pausedAt := none,
    history := t.history ++
      [{ action := HistAction.resumed, byUser := uid, atTime := now,
         reason := none, previousStatus := some t.status }] }

/-- Document-level `resumeTask`: requires status `paused`. -/
def resumeDoc (now : Int) (uid : String) (t : Task) : Except String Task :=
  if t.status ≠ TaskStatus.paused then Except.error "Task is not paused"
  else Except.ok (resumeCore now uid t)

/-- In-memory mutation of `snoozeTask`: `endsAt += snoozeMinutes·60·1000` ms,
`snoozeUntil := now + snoozeMinutes·60·1000`, `originalDuration +=
snoozeMinutes·60`, one `snoozed` history entry (its `addHistory` call passes
no `previousStatus`). -/
def snoozeCore (now : Int) (uid : String) (snoozeMinutes : Int) (t : Task) : Task :=
  { t with
    endsAt := t.endsAt + snoozeMinutes * 60 * 1000,
    snoozeUntil := some (now + snoozeMinutes * 60 * 1000),
    originalDuration := t.originalDuration + snoozeMinutes * 60,
    history := t.history ++
      [{ action := HistAction.snoozed, byUser := uid, atTime := now,
         reason := some ("Snoozed for " ++ toString snoozeMinutes ++ " minutes"),
         previousStatus := none }] }

/-- Document-level `snoozeTask`: requires status `ongoing` and `canSnooze`. -/
def snoozeDoc (now : Int) (uid : String) (snoozeMinutes : Int) (t : Task) :
    Except String Task :=
  if t.status ≠ TaskStatus.ongoing then Except.error "Task is not ongoing"
  else if ¬ t.canSnooze then Except.error "Task cannot be snoozed"
  else Except.ok (snoozeCore now uid snoozeMinutes t)

/-- The task collection: `_id → document`, as an association list. -/
abbrev DB := List (String × Task)

/-- `Task.findOne({ _id: id, userId })`: the ownership check is folded into
the lookup filter, so a task owned by a different user is indistinguishable
from a missing one. -/
def findOneTask (db : DB) (id uid : String) : Option Task :=
  (List.find? (fun p => p.1 == id && p.2.userId == uid) db).map (fun p => p.2)

/-- Store an updated document under its id. -/
def dbSet (db : DB) (id : String) (t : Task) : DB :=
  List.map (fun p => if p.1 == id then (p.1, t) else p) db

/-- The request shape shared by every transition route handler: 404 on a
missing (or foreign-owned, see `findOneTask`) task, then the document-level
guard and mutation; only a successful mutation is saved back — on any error
the store is untouched. -/
def routeOp (docOp : Task → Except String Task) (uid id : String) (db : DB) :
    Except String Task × DB :=
  match findOneTask db id uid with
  | none => (Except.error "Task not found", db)
  | some t =>
    match docOp t with
    | Except.error e => (Except.error e, db)
    | Except.ok t2 => (Except.ok t2, dbSet db id t2)

/-- Route-level `completeTask` (POST `/api/tasks/:id/complete`). -/
def completeTask (now : Int) (uid id : String) (reason : Option String) (db : DB) :
    Except String Task × DB :=
  routeOp (completeDoc now uid reason) uid id db

/-- Route-level `giveUpTask` (POST `/api/tasks/:id/give-up`). -/
def giveUpTask (now : Int) (uid id : String) (reason : Option String) (db : DB) :
    Except String Task × DB :=
  routeOp (giveUpDoc now uid reason) uid id db

/-- Route-level `pauseTask` (POST `/api/tasks/:id/pause`). -/
def pauseTask (now : Int) (uid id : String) (db : DB) : Except String Task × DB :=
  routeOp (pauseDoc now uid) uid id db

/-- Route-level `resumeTask` (POST `/api/tasks/:id/resume`). -/
def resumeTask (now : Int) (uid id : String) (db : DB) : Except String Task × DB :=
  routeOp (resumeDoc now uid) uid id db

/-- Route-level `snoozeTask` (POST `/api/tasks/:id/snooze`). -/
def snoozeTask (now : Int) (uid id : String) (snoozeMinutes : Int) (db : DB) :
    Except String Task × DB :=
  routeOp (snoozeDoc now uid snoozeMinutes) uid id db

/-- The `remainingSeconds` virtual of `models/Task`: 0 for any non-`ongoing`
status; for an ongoing task with `pausedAt` set it is
`max(0, ⌊(endsAt − pausedAt)/1000⌋)` (frozen at the pause instant), and
otherwise `max(0, ⌊(endsAt − now)/1000⌋)`. -/
def remainingSecondsVirtual (t : Task) (now : Int) : Int :=
  if t.status ≠ TaskStatus.ongoing then 0
  else
    match t.pausedAt with
    | some p => max 0 ((t.endsAt - p).fdiv 1000)
    | none => max 0 ((t.endsAt - now).fdiv 1000)

/-- The read-time enrichment computed by `getTasks`/`getTask`:
`status === 'ongoing' && !pausedAt ? max(0, ⌊(endsAt − Date.now())/1000⌋) : 0`.
It is computed per response and never written back to the store. -/
def remainingSecondsEnriched (t : Task) (now : Int) : Int :=
  if t.status = TaskStatus.ongoing ∧ t.pausedAt = none then
    max 0 ((t.endsAt - now).fdiv 1000)
  else 0

/-- The `pausedAt is set iff status is paused` data-model invariant. -/
def pausedInvariant (t : Task) : Prop :=
  t.pausedAt ≠ none ↔ t.status = TaskStatus.paused

instance (t : Task) : Decidable (pausedInvariant t) := by
  unfold pausedInvariant; infer_instance

/-- A PATCH `/api/tasks/:id` request body: every field the schema accepts may
be present. `pausedAt := some none` models sending `pausedAt: null`. -/
structure UpdateBody where
  title : Option String := none
  description : Option String := none
  priority : Option String := none
  tags : Option (List String) := none
  startsAt : Option Int := none
  endsAt : Option Int := none
  originalDuration : Option ℚ := none
  timeSpentSeconds : Option Int := none
  canPause : Option Bool := none
  canSnooze : Option Bool := none
  pausedAt : Option (Option Int) := none
  pausedDuration : Option Int := none
  snoozeUntil : Option (Option Int) := none
  history : Option (List HistoryEntry) := none
  status : Option TaskStatus := none
  userId : Option String := none
deriving DecidableEq

/-- `updateTask` deletes exactly `updates.status`, `updates.userId` and
`updates._id` from the body before applying it. -/
def stripProtected (b : UpdateBody) : UpdateBody :=
  { b with status := none, userId := none }

/-- The schema validators that `runValidators: true` applies to the `$set`
paths: `timeSpentSeconds ≥ 0`, `pausedDuration ≥ 0`, `originalDuration ≥ 60`.
`endsAt` has no validator beyond `required`, so any value passes. -/
def validateUpdate (b : UpdateBody) : Bool :=
  (match b.timeSpentSeconds with | some x => decide (0 ≤ x) | none => true) &&
  (match b.pausedDuration with | some x => decide (0 ≤ x) | none => true) &&
  (match b.originalDuration with | some x => decide (60 ≤ x) | none => true)

/-- `findOneAndUpdate`'s `$set` of every field present in the body. -/
def applyUpdateBody (b : UpdateBody) (t : Task) : Task :=
  { t with
    title := b.title.getD t.title,
    description := (b.description.map Option.some).getD t.description,
    priority := b.priority.getD t.priority,
    tags := b.tags.getD t.tags,
    startsAt := b.startsAt.getD t.startsAt,
    endsAt := b.endsAt.getD t.endsAt,
    originalDuration := b.originalDuration.getD t.originalDuration,
    timeSpentSeconds := b.timeSpentSeconds.getD t.timeSpentSeconds,
    canPause := b.canPause.getD t.canPause,
    canSnooze := b.canSnooze.getD t.canSnooze,
    pausedAt := b.pausedAt.getD t.pausedAt,
    pausedDuration := b.pausedDuration.getD t.pausedDuration,
    snoozeUntil := b.snoozeUntil.getD t.snoozeUntil,
    history := b.history.getD t.history,
    status := b.status.getD t.status,
    userId := b.userId.getD t.userId }

/-- Document-level part of `updateTask`: validators either reject the `$set`
or the stripped body is applied. -/
def updateDoc (b : UpdateBody) (t : Task) : Except String Task :=
  let b2 := stripProtected b
  if validateUpdate b2 then Except.ok (applyUpdateBody b2 t)
  else Except.error "validation failed"

/-- Route-level `updateTask` (PATCH `/api/tasks/:id`): strips only
`status`/`userId`/`_id`, then applies all remaining provided fields through
`findOneAndUpdate` with validators. -/
def updateTask (b : UpdateBody) (uid id : String) (db : DB) :
    Except String Task × DB :=
  routeOp (updateDoc b) uid id db

/-! ## Natural-language time parser (`src/server/src/utils/timeParser.ts`) -/

/-- Numeric value of a digit run, as `parseInt`/`parseFloat` read it. -/
def digitsToNat (ds : List Char) : Nat :=
  List.foldl (fun a c => a * 10 + (c.toNat - 48)) 0 ds

/-- Leftmost match of the JS regex `(\d+)\s*u...` (unit letter `u`, with the
optional letter groups and `s?` after it, which never constrain the match):
at each start position, a nonempty maximal digit run, any whitespace, then
the unit letter. Returns the captured digits. -/
def matchIntUnit (u : Char) : List Char → Option Nat
  | [] => none
  | c :: rest =>
    if c.isDigit then
      let run := (c :: rest).takeWhile Char.isDigit
      let after := ((c :: rest).dropWhile Char.isDigit).dropWhile Char.isWhitespace
      match after with
      | u2 :: _ => if u2 = u then some (digitsToNat run) else matchIntUnit u rest
      | [] => matchIntUnit u rest
    else matchIntUnit u rest

/-- Leftmost match of `(\d+\.?\d*)\s*u...`: integer digits, an optional dot
with further digits, whitespace, the unit letter; the captured value is the
decimal `parseFloat` reads. -/
def matchDecUnit (u : Char) : List Char → Option ℚ
  | [] => none
  | c :: rest =>
    if c.isDigit then
      let intPart := (c :: rest).takeWhile Char.isDigit
      let after1 := (c :: rest).dropWhile Char.isDigit
      let fracPart :=
        match after1 with
        | '.' :: r2 => r2.takeWhile Char.isDigit
        | _ => []
      let after2 :=
        match after1 with
        | '.' :: r2 => r2.dropWhile Char.isDigit
        | _ => after1
      let afterWs := after2.dropWhile Char.isWhitespace
      match afterWs with
      | u2 :: _ =>
        if u2 = u then
          some ((digitsToNat intPart : ℚ) +
            (digitsToNat fracPart : ℚ) / ((10 : ℚ) ^ fracPart.length))
        else matchDecUnit u rest
      | [] => matchDecUnit u rest
    else matchDecUnit u rest

/-- The `durationPatterns` table, in source order: integer hours, minutes,
seconds, then the decimal hour and minute patterns; each with its multiplier
into seconds. -/
def durationPatterns : List (Bool × Char × ℚ) :=
  [(false, 'h', 3600), (false, 'm', 60), (false, 's', 1),
   (true, 'h', 3600), (true, 'm', 60)]

/-- One pattern of the table applied to the normalized input. -/
def matchDurationPattern (dec : Bool) (u : Char) (s : List Char) : Option ℚ :=
  if dec then matchDecUnit u s else (matchIntUnit u s).map (fun n => (n : ℚ))

/-- First matching duration pattern, returning `value * multiplier` seconds. -/
def durationFirst (s : List Char) : List (Bool × Char × ℚ) → Option ℚ
  | [] => none
  | (dec, u, mult) :: ps =>
    match matchDurationPattern dec u s with
    | some v => some (v * mult)
    | none => durationFirst s ps

/-- The `quickDurationMap` shorthand table, in source (insertion) order. -/
def quickDurationMap : List (String × Nat) :=
  [("15min", 15 * 60), ("30min", 30 * 60), ("45min", 45 * 60),
   ("1h", 60 * 60), ("1hour", 60 * 60),
   ("2h", 2 * 60 * 60), ("2hours", 2 * 60 * 60),
   ("3h", 3 * 60 * 60), ("4h", 4 * 60 * 60),
   ("1d", 24 * 60 * 60), ("1day", 24 * 60 * 60)]

/-- `String.prototype.includes`: `key` occurs contiguously inside `s`. -/
def containsSub (key : List Char) : List Char → Bool
  | [] => List.isPrefixOf key []
  | c :: t => List.isPrefixOf key (c :: t) || containsSub key t

/-- First entry of the shorthand table whose key the normalized input
contains, with its fixed duration. -/
def quickFirst (s : List Char) : Option Nat :=
  (List.find? (fun kv => containsSub kv.1.data s) quickDurationMap).map (fun kv => kv.2)

/-- Leftmost match of `in (\d+) ?u...`: literal `in `, digits, an optional
single space, then the unit letter. -/
def relInAt (u : Char) (s : List Char) : Option Nat :=
  match s with
  | 'i' :: 'n' :: ' ' :: rest =>
    let ds := rest.takeWhile Char.isDigit
    if ds.isEmpty then none
    else
      let after := rest.dropWhile Char.isDigit
      let after2 := match after with | ' ' :: r => r | _ => after
      match after2 with
      | u2 :: _ => if u2 = u then some (digitsToNat ds) else none
      | [] => none
  | _ => none

/-- Scan for the leftmost `in N unit` occurrence. -/
def matchRelIn (u : Char) : List Char → Option Nat
  | [] => none
  | c :: t =>
    match relInAt u (c :: t) with
    | some n => some n
    | none => matchRelIn u t

/-- Leftmost match of `(\d+) ?(alt₁|alt₂|...) from now`: digits, an optional
single space, then one of the unit-word alternatives followed by
`" from now"`. -/
def relFromAt (alts : List (List Char)) (s : List Char) : Option Nat :=
  match s with
  | [] => none
  | c :: _ =>
    if c.isDigit then
      let ds := s.takeWhile Char.isDigit
      let after := s.dropWhile Char.isDigit
      let after2 := match after with | ' ' :: r => r | _ => after
      if alts.any (fun a => List.isPrefixOf a after2) then some (digitsToNat ds)
      else none
    else none

/-- Scan for the leftmost `N unit from now` occurrence. -/
def matchRelFrom (alts : List (List Char)) : List Char → Option Nat
  | [] => none
  | c :: t =>
    match relFromAt alts (c :: t) with
    | some n => some n
    | none => matchRelFrom alts t

/-- Alternatives of `(h|hour|hours) from now`. -/
def hourFromNowAlts : List (List Char) :=
  ["h from now".data, "hour from now".data, "hours from now".data]

/-- Alternatives of `(m|min|minute|minutes) from now`. -/
def minuteFromNowAlts : List (List Char) :=
  ["m from now".data, "min from now".data, "minute from now".data,
   "minutes from now".data]

/-- The `relativePatterns` chain, in source order, returning the computed
`endsAt` (date-fns `addHours`/`addMinutes`/`addDays` are plain ms offsets). -/
def relativeFirst (now : Int) (s : List Char) : Option Int :=
  match matchRelIn 'h' s with
  | some n => some (now + (n : Int) * 3600000)
  | none =>
  match matchRelIn 'm' s with
  | some n => some (now + (n : Int) * 60000)
  | none =>
  match matchRelIn 'd' s with
  | some n => some (now + (n : Int) * 86400000)
  | none =>
  match matchRelFrom hourFromNowAlts s with
  | some n => some (now + (n : Int) * 3600000)
  | none =>
  (matchRelFrom minuteFromNowAlts s).map (fun n => now + (n : Int) * 60000)

/-- Leftmost digit run of the input (`normalizedInput.match(/(\d+)/)`). -/
def firstNumberRun : List Char → Option Nat
  | [] => none
  | c :: t =>
    if c.isDigit then some (digitsToNat ((c :: t).takeWhile Char.isDigit))
    else firstNumberRun t

/-- `String.prototype.trim`: strip whitespace from both ends. -/
def trimChars (s : List Char) : List Char :=
  ((s.dropWhile Char.isWhitespace).reverse.dropWhile Char.isWhitespace).reverse

/-- `input.toLowerCase().trim()`: the normalized character list every regex
stage scans. -/
def normalizeInput (input : String) : List Char :=
  trimChars (input.data.map Char.toLower)

/-- Result record of the resolver (`ParsedTime` in the source): absolute end
time and duration in seconds, both JS numbers. -/
structure ParsedTime where
  endsAt : ℚ
  duration : ℚ
deriving DecidableEq, Repr

/-- `parseNaturalLanguage`: the five-stage fallback chain of the source, in
order — shorthand table, regex duration patterns, the external `chrono`
grammar (passed in as an oracle `String → Option Int` over the *raw* input,
guarded by `forwardDate`/`> now`), relative phrasings, then a bare number
1–1440 read as minutes. Returns `none` (`NotParseable`) if nothing matches. -/
def parseNaturalLanguage (chrono : String → Option Int) (now : Int)
    (input : String) : Option ParsedTime :=
  let s := normalizeInput input
  match quickFirst s with
  | some d => some { endsAt := (now : ℚ) + (d : ℚ) * 1000, duration := (d : ℚ) }
  | none =>
  match durationFirst s durationPatterns with
  | some dur => some { endsAt := (now : ℚ) + dur * 1000, duration := dur }
  | none =>
  let chronoRes : Option ParsedTime :=
    match chrono input with
    | some tEnd =>
      if now < tEnd then
        some { endsAt := (tEnd : ℚ), duration := (((tEnd - now).fdiv 1000 : Int) : ℚ) }
      else none
    | none => none
  match chronoRes with
  | some p => some p
  | none =>
  match relativeFirst now s with
  | some e => some { endsAt := (e : ℚ), duration := (((e - now).fdiv 1000 : Int) : ℚ) }
  | none =>
  match firstNumberRun s with
  | some n =>
    if 0 < n ∧ n ≤ 1440 then
      some { endsAt := (now : ℚ) + ((n : ℚ) * 60) * 1000, duration := (n : ℚ) * 60 }
    else none
  | none => none

/-- The `naturalTime` branch of `createTask`: an unparseable spec is a 400
validation error, a resolved duration below 60 seconds is rejected with the
minimum-duration message, otherwise the task is created `ongoing` with the
resolved deadline (`Date` truncates the ms value to an integer). -/
def createTaskNatural (chrono : String → Option Int) (now : Int)
    (uid title naturalTime : String) (canPause canSnooze : Bool) :
    Except String Task :=
  match parseNaturalLanguage chrono now naturalTime with
  | none => Except.error "Could not parse natural language time"
  | some p =>
    if p.duration < 60 then Except.error "Task duration must be at least 1 minute"
    else
      Except.ok { newTask uid now ⌊p.endsAt⌋ p.duration canPause canSnooze with
                  title := title }

/-! ## Reminder job scheduler and worker (`jobs/taskJobs`) -/

/-- Job kinds used by the reminder queue (`type` in the job data). -/
inductive JobKind
  | deadline
  | warning
  | pomodoro
deriving DecidableEq, Repr

/-- A queued delayed job: bullmq name, deterministic `jobId`, payload and
delay (ms) with the absolute `scheduledFor` instant carried in the data. -/
structure Job where
  jobName : String
  jobId : String
  taskId : String
  userId : String
  kind : JobKind
  delay : Int
  scheduledFor : Int
deriving DecidableEq, Repr

/-- The delayed-job queue. -/
abbrev Queue := List Job

/-- `queue.add(..., { jobId })`: bullmq ignores an add whose `jobId`
already exists, otherwise the job is appended. -/
def queueAdd (q : Queue) (j : Job) : Queue :=
  if List.any q (fun x => x.jobId == j.jobId) then q else q ++ [j]

/-- `queue.getJob(jobId)` followed by `job.remove()`: drops the job with
that id; nothing happens when no such job exists. -/
def queueRemove (q : Queue) (jid : String) : Queue :=
  List.filter (fun x => x.jobId != jid) q

/-- `cancelTaskReminder`: removes the four deterministic job ids of a task
(deadline, the two warnings, pomodoro); ids that are absent are skipped. -/
def cancelTaskReminder (taskId : String) (q : Queue) : Queue :=
  List.foldl queueRemove q
    ["deadline-" ++ taskId, "warning-" ++ taskId ++ "-5m",
     "warning-" ++ taskId ++ "-1m", "pomodoro-" ++ taskId]

/-- The deadline job payload of `scheduleTaskReminder`: deterministic id
`deadline-{taskId}`, delay clamped to `max(0, endsAt − now)`, scheduled for
the deadline instant. -/
def deadlineJob (taskId userId : String) (endsAt now : Int) : Job :=
  { jobName := "task-deadline-" ++ taskId, jobId := "deadline-" ++ taskId,
    taskId := taskId, userId := userId, kind := JobKind.deadline,
    delay := max 0 (endsAt - now), scheduledFor := endsAt }

/-- The 5-minute warning job payload: deterministic id
`warning-{taskId}-5m`. -/
def warning5Job (taskId userId : String) (delay5 now : Int) : Job :=
  { jobName := "task-warning-" ++ taskId ++ "-5m",
    jobId := "warning-" ++ taskId ++ "-5m",
    taskId := taskId, userId := userId, kind := JobKind.warning,
    delay := delay5, scheduledFor := now + delay5 }

/-- The 1-minute warning job payload: deterministic id
`warning-{taskId}-1m`. -/
def warning1Job (taskId userId : String) (delay1 now : Int) : Job :=
  { jobName := "task-warning-" ++ taskId ++ "-1m",
    jobId := "warning-" ++ taskId ++ "-1m",
    taskId := taskId, userId := userId, kind := JobKind.warning,
    delay := delay1, scheduledFor := now + delay1 }

/-- `scheduleTaskReminder(taskId, userId, endsAt)` at time `now`: cancels the
task's existing jobs, then always enqueues the deadline job with delay
`max(0, endsAt − now)`, and each warning job (5 and 1 minutes before the
deadline) only when its clamped delay is strictly positive. -/
def scheduleTaskReminder (taskId userId : String) (endsAt now : Int) (q : Queue) :
    Queue :=
  let q1 := cancelTaskReminder taskId q
  let timeUntilDeadline := endsAt - now
  let q2 := queueAdd q1 (deadlineJob taskId userId endsAt now)
  let delay5 := max 0 (timeUntilDeadline - 5 * 60 * 1000)
  let q3 :=
    if 0 < delay5 then queueAdd q2 (warning5Job taskId userId delay5 now)
    else q2
  let delay1 := max 0 (timeUntilDeadline - 1 * 60 * 1000)
  if 0 < delay1 then queueAdd q3 (warning1Job taskId userId delay1 now)
  else q3

/-- The user document fields the reminder worker consults. -/
structure User where
  pushNotificationsEnabled : Bool := true
  pushSubscriptions : List String := []
deriving DecidableEq, Repr

/-- A dispatched reminder: the socket `task:reminder` event payload plus the
number of push notifications attempted. -/
structure ReminderEvent where
  title : String
  body : String
  urgency : String
  pushCount : Nat
deriving DecidableEq, Repr

/-- The reminder worker handler: it re-reads the task and user (modelled by
receiving their *current* states); a missing task or user, or a task whose
status is no longer `ongoing`, is a silent no-op; otherwise the notification
content is built from the job type and overdue flag and dispatched to the
socket room (and to each push subscription when push is enabled). -/
def taskReminderWorker (taskOpt : Option Task) (userOpt : Option User)
    (ty : String) (now : Int) : Option ReminderEvent :=
  match taskOpt, userOpt with
  | some task, some user =>
    if task.status ≠ TaskStatus.ongoing then none
    else
      let isOverdue := task.endsAt < now
      let titleBody :=
        if ty = "deadline" then
          ((if isOverdue then "Task Overdue!" else "Task Deadline Reached!"),
           "\"" ++ task.title ++ "\"" ++
             (if isOverdue then " is overdue" else " deadline has arrived"),
           "high")
        else if ty = "warning" then
          ("Task Deadline Approaching", "\"" ++ task.title ++ "\" is due soon",
           "normal")
        else if ty = "pomodoro" then
          ("Pomodoro Session Complete",
           "Time for a break from \"" ++ task.title ++ "\"", "normal")
        else
          ("Task Reminder", "Don't forget about \"" ++ task.title ++ "\"",
           "normal")
      some { title := titleBody.1, body := titleBody.2.1, urgency := titleBody.2.2,
             pushCount :=
               if user.pushNotificationsEnabled ∧ user.pushSubscriptions ≠ [] then
                 user.pushSubscriptions.length
               else 0 }
  | _, _ => none

/-! ## Client time reconciliation (`useTimeSync`) -/

/-- The hook's state: clock offset, last sync instant, and the measured
round-trip time stored as the accuracy estimate (all JS numbers;
`performance.now()` values are fractional ms). -/
structure TimeSyncData where
  offset : ℚ
  lastSync : ℚ
  accuracy : ℚ
deriving DecidableEq, Repr

/-- `syncTime`: given the reported server time, the local receipt instant
`clientTimeWhenReceived`, and the `performance.now()` bracket of the request,
computes `roundTripTime`, `networkDelay = rtt/2`, and
`offset = clientTimeWhenReceived − (serverTime + networkDelay)`. -/
def syncTime (serverTime clientTimeWhenReceived startPerf endPerf : ℚ) :
    TimeSyncData :=
  let roundTripTime := endPerf - startPerf
  let networkDelay := roundTripTime / 2
  let adjustedServerTime := serverTime + networkDelay
  { offset := clientTimeWhenReceived - adjustedServerTime,
    lastSync := clientTimeWhenReceived,
    accuracy := roundTripTime }

/-- `getAdjustedTime`: `Date.now() − offset`. -/
def getAdjustedTime (now : ℚ) (d : TimeSyncData) : ℚ :=
  now - d.offset

/-- `getRemainingTime`: `max(0, ⌊(endsAt − adjustedNow)/1000⌋)`. -/
def getRemainingTime (endsAt now : ℚ) (d : TimeSyncData) : Int :=
  max 0 ⌊(endsAt - getAdjustedTime now d) / 1000⌋

/-- `isSyncAccurate`: synced less than 5 minutes ago and measured rtt under
5 seconds. -/
def isSyncAccurate (now : ℚ) (d : TimeSyncData) : Bool :=
  decide (now - d.lastSync < 300000) && decide (d.accuracy < 5000)

/-- Number of `completed` entries in a task's history. -/
def histCompletedCount (t : Task) : Nat :=
  (t.history.filter (fun h => h.action == HistAction.completed)).length

/-! ## Theorems -/

/-- C1, counterexample: the claim says every task whose status is not
`ongoing` *or whose `pausedAt` is set* reads `remainingSeconds = 0`.  The
model's `remainingSeconds` virtual violates this: an ongoing task with
`pausedAt` set (endsAt 10 s after the pause instant) reads 10, not 0. -/
theorem c1_virtual_nonzero_when_paused_set :
    ({ userId := "u", startsAt := 0, endsAt := 10000, originalDuration := 600,
       pausedAt := some 0 } : Task).pausedAt ≠ none ∧
    remainingSecondsVirtual
      { userId := "u", startsAt := 0, endsAt := 10000, originalDuration := 600,
        pausedAt := some 0 } 0 ≠ 0 := by
  decide

/-- C1, amended: the `getTasks`/`getTask` read-time enrichment satisfies the
claim exactly (0 whenever status is not `ongoing` or `pausedAt` is set, else
`max(0, ⌊(endsAt − now)/1000⌋)`, computed at read time).  The model virtual
returns 0 for every non-`ongoing` task and agrees with the enrichment on
ongoing non-paused tasks, but on an ongoing task with `pausedAt` set it
returns the value frozen at the pause instant; that state never arises
through the lifecycle operations, which all preserve the
`pausedAt ≠ none ↔ status = paused` invariant (under which the virtual also
satisfies the claim). -/
theorem c1_remaining_seconds_amended :
    (∀ (t : Task) (now : Int),
        t.status ≠ TaskStatus.ongoing ∨ t.pausedAt ≠ none →
        remainingSecondsEnriched t now = 0) ∧
    (∀ (t : Task) (now : Int),
        t.status = TaskStatus.ongoing → t.pausedAt = none →
        remainingSecondsEnriched t now = max 0 ((t.endsAt - now).fdiv 1000) ∧
        remainingSecondsVirtual t now = max 0 ((t.endsAt - now).fdiv 1000)) ∧
    (∀ (t : Task) (now : Int),
        t.status ≠ TaskStatus.ongoing → remainingSecondsVirtual t now = 0) ∧
    (∀ (t : Task) (now : Int),
        pausedInvariant t →
        t.status ≠ TaskStatus.ongoing ∨ t.pausedAt ≠ none →
        remainingSecondsVirtual t now = 0) ∧
    (∀ (uid : String) (now endsAt : Int) (d : ℚ) (cp cs : Bool),
        pausedInvariant (newTask uid now endsAt d cp cs)) ∧
    (∀ (now : Int) (uid : String) (r : Option String) (t : Task),
        pausedInvariant t →
        pausedInvariant (completeCore now uid r t) ∧
        pausedInvariant (giveUpCore now uid r t) ∧
        pausedInvariant (pauseCore now uid t) ∧
        pausedInvariant (resumeCore now uid t)) ∧
    (∀ (now : Int) (uid : String) (m : Int) (t : Task),
        t.status = TaskStatus.ongoing → pausedInvariant t →
        pausedInvariant (snoozeCore now uid m t)) := by
  refine ⟨?_, ?_, ?_, ?_, ?_, ?_, ?_⟩
  · intro t now h
    unfold remainingSecondsEnriched
    rcases h with h | h
    · rw [if_neg]; exact fun hc => h hc.1
    · rw [if_neg]; exact fun hc => h hc.2
  · intro t now h1 h2
    constructor
    · unfold remainingSecondsEnriched
      rw [if_pos ⟨h1, h2⟩]
    · simp [remainingSecondsVirtual, h1, h2]
  · intro t now h
    unfold remainingSecondsVirtual
    rw [if_pos h]
  · intro t now hinv h
    rcases h with h | h
    · unfold remainingSecondsVirtual; rw [if_pos h]
    · have hp : t.status = TaskStatus.paused := hinv.mp h
      unfold remainingSecondsVirtual
      rw [if_pos (by rw [hp]; exact fun hc => TaskStatus.noConfusion hc)]
  · intro uid now endsAt d cp cs
    simp [pausedInvariant, newTask]
  · intro now uid r t hinv
    refine ⟨?_, ?_, ?_, ?_⟩
    · simp [pausedInvariant, completeCore, completeWriteEntry]
    · simp [pausedInvariant, giveUpCore]
    · simp [pausedInvariant, pauseCore]
    · simp [pausedInvariant, resumeCore]
  · intro now uid m t hstat hinv
    simpa [pausedInvariant, snoozeCore] using hinv

/-- C1, witness for the amended theorem: a completed task reads 0 through
both the enrichment and the virtual. -/
theorem c1_remaining_seconds_amended_witness :
    remainingSecondsEnriched
      { userId := "u", startsAt := 0, endsAt := 99000, originalDuration := 600,
        status := TaskStatus.completed } 5 = 0 ∧
    remainingSecondsVirtual
      { userId := "u", startsAt := 0, endsAt := 99000, originalDuration := 600,
        status := TaskStatus.completed } 5 = 0 :=
  ⟨c1_remaining_seconds_amended.1 _ 5 (Or.inl (by decide)),
   c1_remaining_seconds_amended.2.2.1 _ 5 (by decide)⟩

/-- C5: the reminder worker dispatches a notification exactly when the task
and user it re-reads at fire time exist and the task's status is still
`ongoing`; a job whose task has left `ongoing` is a silent no-op. -/
theorem c5_reminder_fires_only_when_ongoing :
    ∀ (taskOpt : Option Task) (userOpt : Option User) (ty : String) (now : Int),
      (taskReminderWorker taskOpt userOpt ty now).isSome = true ↔
        (∃ task user, taskOpt = some task ∧ userOpt = some user ∧
          task.status = TaskStatus.ongoing) := by
  intro taskOpt userOpt ty now
  cases taskOpt with
  | none => simp [taskReminderWorker]
  | some task =>
    cases userOpt with
    | none => simp [taskReminderWorker]
    | some user =>
      by_cases h : task.status = TaskStatus.ongoing
      · simp [taskReminderWorker, h]
      · simp [taskReminderWorker, h]

/-- C6: the elapsed-time query returns
`max(0, timeSpentSeconds + (ongoing ∧ ¬paused ? ⌊(now − startsAt)/1000⌋ −
pausedDuration : 0))`; complete and give-up commit exactly this value; and
the Scenario-B run (create at t0=0 with 600 s, pause at t0+100 s, resume at
t0+400 s giving pausedDuration 300 s, complete at t0+500 s) commits
`timeSpentSeconds = 200`. -/
theorem c6_elapsed_time_accounting :
    (∀ (now : Int) (t : Task),
        calculateActualTimeSpent now t =
          max 0 (t.timeSpentSeconds +
            (if t.status = TaskStatus.ongoing ∧ t.pausedAt = none then
              (now - t.startsAt).fdiv 1000 - t.pausedDuration
            else 0))) ∧
    (∀ (now : Int) (uid : String) (r : Option String) (t : Task),
        (completeCore now uid r t).timeSpentSeconds = calculateActualTimeSpent now t ∧
        (giveUpCore now uid r t).timeSpentSeconds = calculateActualTimeSpent now t) ∧
    ((resumeTask 400000 "u" "t"
        (pauseTask 100000 "u" "t"
          [("t", newTask "u" 0 600000 600 true false)]).2).1.toOption.map
      Task.pausedDuration) = some 300 ∧
    ((completeTask 500000 "u" "t" none
        (resumeTask 400000 "u" "t"
          (pauseTask 100000 "u" "t"
            [("t", newTask "u" 0 600000 600 true false)]).2).2).1.toOption.map
      (fun t => (t.timeSpentSeconds, t.status))) =
      some (200, TaskStatus.completed) := by
  refine ⟨?_, ?_, ?_, ?_⟩
  · intro now t
    simp only [calculateActualTimeSpent]
    split
    · rfl
    · simp
  · intro now uid r t
    exact ⟨rfl, rfl⟩
  · decide
  · decide

/-- C8: one sync stores `offset = localTimeAtReceipt − (serverTime + rtt/2)`
with the measured rtt as accuracy; every remaining-time display computes
`max(0, ⌊(endsAt − (localNow − offset))/1000⌋)`; and the sync is judged
accurate iff it happened less than 5 minutes ago with rtt under 5 seconds. -/
theorem c8_time_reconciliation :
    (∀ serverTime clientReceived startPerf endPerf : ℚ,
        (syncTime serverTime clientReceived startPerf endPerf).offset =
          clientReceived - (serverTime + (endPerf - startPerf) / 2) ∧
        (syncTime serverTime clientReceived startPerf endPerf).accuracy =
          endPerf - startPerf ∧
        (syncTime serverTime clientReceived startPerf endPerf).lastSync =
          clientReceived) ∧
    (∀ (endsAt now : ℚ) (d : TimeSyncData),
        getRemainingTime endsAt now d =
          max 0 ⌊(endsAt - (now - d.offset)) / 1000⌋) ∧
    (∀ (now : ℚ) (d : TimeSyncData),
        isSyncAccurate now d = true ↔
          (now - d.lastSync < 300000 ∧ d.accuracy < 5000)) := by
  refine ⟨?_, ?_, ?_⟩
  · intro serverTime clientReceived startPerf endPerf
    exact ⟨rfl, rfl, rfl⟩
  · intro endsAt now d
    rfl
  · intro now d
    simp [isSyncAccurate]

/-- A route handler that answers with an error leaves the store untouched. -/
theorem routeOp_error_snd (f : Task → Except String Task) (uid id : String)
    (db : DB) (e : String) :
    (routeOp f uid id db).1 = Except.error e → (routeOp f uid id db).2 = db := by
  unfold routeOp
  cases hf : findOneTask db id uid with
  | none => intro _; rfl
  | some t =>
    intro h
    cases hd : f t with
    | error e2 => simp [hd]
    | ok t2 => simp [hd] at h

/-- A missing (or foreign-owned) task makes every route handler answer 404. -/
theorem routeOp_not_found (f : Task → Except String Task) (uid id : String)
    (db : DB) :
    findOneTask db id uid = none →
    (routeOp f uid id db).1 = Except.error "Task not found" := by
  intro h
  simp [routeOp, h]

/-- A document-level error is the route handler's response. -/
theorem routeOp_doc_error (f : Task → Except String Task) (uid id : String)
    (db : DB) (t : Task) (e : String) :
    findOneTask db id uid = some t → f t = Except.error e →
    (routeOp f uid id db).1 = Except.error e := by
  intro h1 h2
  simp [routeOp, h1, h2]

/-- C2, counterexample: interleaving two `completeTask` requests on the same
ongoing task as read₁, read₂, commit₁, commit₂ — both status checks run
against the initial snapshot, so *both* calls succeed (the claim requires
exactly one), and the two `save()`s push two `completed` history entries
(the claim requires exactly one); no `Conflict` error exists anywhere in the
controller. -/
theorem c2_concurrent_completes_both_succeed :
    completeDoc 1000 "u" none (newTask "u" 0 600000 600 false false) =
      Except.ok (completeCore 1000 "u" none (newTask "u" 0 600000 600 false false)) ∧
    completeDoc 2000 "u" none (newTask "u" 0 600000 600 false false) =
      Except.ok (completeCore 2000 "u" none (newTask "u" 0 600000 600 false false)) ∧
    histCompletedCount
      (completeWriteEntry 2000 "u" none (newTask "u" 0 600000 600 false false)
        (completeWriteEntry 1000 "u" none (newTask "u" 0 600000 600 false false)
          (newTask "u" 0 600000 600 false false))) = 2 := by
  decide

/-- C2, amended: the transition guard is check-then-act — it checks the
stored status as read at the start of the request and there is no
commit-time guard and no `Conflict` error.  When the two `complete` calls
are serialized, exactly one succeeds, the other observes the terminal state
and fails with the invalid-transition error, and exactly one `completed`
history entry is appended; when both reads precede both commits, both calls
succeed and two `completed` entries are recorded. -/
theorem c2_complete_check_then_act_amended :
    (∀ (now1 now2 : Int) (uid : String) (r : Option String) (t : Task),
        t.status = TaskStatus.ongoing →
        completeDoc now1 uid r t = Except.ok (completeCore now1 uid r t) ∧
        completeDoc now2 uid r (completeCore now1 uid r t) =
          Except.error "Task is not active" ∧
        (completeCore now1 uid r t).status = TaskStatus.completed ∧
        histCompletedCount (completeCore now1 uid r t) = histCompletedCount t + 1) ∧
    (∀ (now1 now2 : Int) (uid : String) (r : Option String) (t : Task),
        t.status = TaskStatus.ongoing →
        completeDoc now1 uid r t = Except.ok (completeCore now1 uid r t) ∧
        completeDoc now2 uid r t = Except.ok (completeCore now2 uid r t) ∧
        (completeWriteEntry now2 uid r t
          (completeWriteEntry now1 uid r t t)).status = TaskStatus.completed ∧
        histCompletedCount
          (completeWriteEntry now2 uid r t (completeWriteEntry now1 uid r t t)) =
          histCompletedCount t + 2) := by
  constructor
  · intro now1 now2 uid r t h
    refine ⟨?_, ?_, rfl, ?_⟩
    · simp [completeDoc, h]
    · simp [completeDoc, completeCore, completeWriteEntry]
    · simp [histCompletedCount, completeCore, completeWriteEntry,
        List.filter_append]
  · intro now1 now2 uid r t h
    refine ⟨?_, ?_, rfl, ?_⟩
    · simp [completeDoc, h]
    · simp [completeDoc, h]
    · simp [histCompletedCount, completeWriteEntry, List.filter_append]

/-- C2, witness for the amended theorem at a concrete fresh ongoing task. -/
theorem c2_complete_check_then_act_amended_witness :
    completeDoc 1000 "u" none (newTask "u" 0 600000 600 false false) =
      Except.ok (completeCore 1000 "u" none (newTask "u" 0 600000 600 false false)) ∧
    completeDoc 2000 "u" none
        (completeCore 1000 "u" none (newTask "u" 0 600000 600 false false)) =
      Except.error "Task is not active" ∧
    histCompletedCount
        (completeCore 1000 "u" none (newTask "u" 0 600000 600 false false)) =
      histCompletedCount (newTask "u" 0 600000 600 false false) + 1 :=
  ⟨(c2_complete_check_then_act_amended.1 1000 2000 "u" none _ (by decide)).1,
   (c2_complete_check_then_act_amended.1 1000 2000 "u" none _ (by decide)).2.1,
   (c2_complete_check_then_act_amended.1 1000 2000 "u" none _ (by decide)).2.2.2⟩

/-- C3, counterexample: the field-update endpoint is *not* restricted to
non-lifecycle fields — a PATCH body carrying `endsAt` moves the deadline,
here from 1000000 ms back to 0, i.e. `endsAt` is moved earlier by an
operation other than snooze. -/
theorem c3_update_moves_endsAt_earlier :
    ((updateTask { endsAt := some 0 } "u" "t1"
        [("t1", newTask "u" 0 1000000 600 false false)]).1.toOption.map
      Task.endsAt) = some 0 ∧
    (findOneTask [("t1", newTask "u" 0 1000000 600 false false)] "t1" "u").map
      Task.endsAt = some 1000000 := by
  decide

/-- C3, amended: the lifecycle transitions other than snooze never change
`endsAt`, snooze changes it by exactly `snoozeMinutes·60` s (an extension
whenever the snooze amount is non-negative), and the field-update endpoint
can never change `status` or `userId` (it strips them) — but every other
field it receives, including `endsAt`, `pausedAt`, `pausedDuration`,
`timeSpentSeconds` and `history`, is applied as sent. -/
theorem c3_endsAt_amended :
    (∀ (b : UpdateBody) (t : Task),
        (applyUpdateBody (stripProtected b) t).status = t.status ∧
        (applyUpdateBody (stripProtected b) t).userId = t.userId) ∧
    (∀ (now : Int) (uid : String) (r : Option String) (t : Task),
        (completeCore now uid r t).endsAt = t.endsAt ∧
        (giveUpCore now uid r t).endsAt = t.endsAt ∧
        (pauseCore now uid t).endsAt = t.endsAt ∧
        (resumeCore now uid t).endsAt = t.endsAt) ∧
    (∀ (now : Int) (uid : String) (m : Int) (t : Task),
        (snoozeCore now uid m t).endsAt = t.endsAt + m * 60 * 1000 ∧
        (0 ≤ m → t.endsAt ≤ (snoozeCore now uid m t).endsAt)) ∧
    (∀ (b : UpdateBody) (t : Task),
        (applyUpdateBody (stripProtected b) t).endsAt = (b.endsAt).getD t.endsAt ∧
        (applyUpdateBody (stripProtected b) t).history = (b.history).getD t.history) := by
  refine ⟨?_, ?_, ?_, ?_⟩
  · intro b t
    exact ⟨rfl, rfl⟩
  · intro now uid r t
    exact ⟨rfl, rfl, rfl, rfl⟩
  · intro now uid m t
    refine ⟨rfl, ?_⟩
    intro hm
    show t.endsAt ≤ t.endsAt + m * 60 * 1000
    omega
  · intro b t
    exact ⟨rfl, rfl⟩

/-- C3, witness for the amended theorem: a 10-minute snooze moves a deadline
from 600000 ms to 1200000 ms, an extension. -/
theorem c3_endsAt_amended_witness :
    (snoozeCore 5 "u" 10 (newTask "u" 0 600000 600 false true)).endsAt =
      600000 + 10 * 60 * 1000 ∧
    (newTask "u" 0 600000 600 false true).endsAt ≤
      (snoozeCore 5 "u" 10 (newTask "u" 0 600000 600 false true)).endsAt :=
  ⟨(c3_endsAt_amended.2.2.1 5 "u" 10 _).1,
   (c3_endsAt_amended.2.2.1 5 "u" 10 _).2 (by decide)⟩

/-- C9, counterexample: a transition attempted by a user who does not own
the task fails with the `NotFound` response (`'Task not found'`), not a
distinct `Forbidden` error as the claim requires — the ownership check is
folded into the `findOne({_id, userId})` filter and no `Forbidden` error
exists in the controller. (The store is untouched, as the claim states.) -/
theorem c9_other_user_gets_not_found :
    (pauseTask 0 "bob" "t1"
        [("t1", newTask "alice" 0 600000 600 true false)]).1 =
      Except.error "Task not found" ∧
    (pauseTask 0 "bob" "t1"
        [("t1", newTask "alice" 0 600000 600 true false)]).2 =
      [("t1", newTask "alice" 0 600000 600 true false)] := by
  decide

/-- C9, amended: every transition whose precondition fails — wrong source
status (including any transition out of the terminal states `completed` or
`given_up`), a missing `canPause`/`canSnooze` capability, a non-existent
task id, or a task owned by a different user — fails without touching the
store; wrong status and missing capability yield the invalid-transition
errors, while a non-existent id *and* a foreign-owned task both yield the
`NotFound` error (there is no separate `Forbidden`). -/
theorem c9_failure_semantics_amended :
    (∀ (now : Int) (uid id : String) (r : Option String) (db : DB) (e : String),
        ((completeTask now uid id r db).1 = Except.error e →
          (completeTask now uid id r db).2 = db) ∧
        ((giveUpTask now uid id r db).1 = Except.error e →
          (giveUpTask now uid id r db).2 = db)) ∧
    (∀ (now m : Int) (uid id : String) (b : UpdateBody) (db : DB) (e : String),
        ((pauseTask now uid id db).1 = Except.error e →
          (pauseTask now uid id db).2 = db) ∧
        ((resumeTask now uid id db).1 = Except.error e →
          (resumeTask now uid id db).2 = db) ∧
        ((snoozeTask now uid id m db).1 = Except.error e →
          (snoozeTask now uid id m db).2 = db) ∧
        ((updateTask b uid id db).1 = Except.error e →
          (updateTask b uid id db).2 = db)) ∧
    (∀ (now m : Int) (uid id : String) (r : Option String) (db : DB) (t : Task),
        findOneTask db id uid = some t →
        t.status = TaskStatus.completed ∨ t.status = TaskStatus.given_up →
        (completeTask now uid id r db).1 = Except.error "Task is not active" ∧
        (giveUpTask now uid id r db).1 = Except.error "Task is not active" ∧
        (pauseTask now uid id db).1 = Except.error "Task is not ongoing" ∧
        (resumeTask now uid id db).1 = Except.error "Task is not paused" ∧
        (snoozeTask now uid id m db).1 = Except.error "Task is not ongoing") ∧
    (∀ (now m : Int) (uid id : String) (db : DB) (t : Task),
        findOneTask db id uid = some t → t.status = TaskStatus.ongoing →
        (t.canPause = false →
          (pauseTask now uid id db).1 = Except.error "Task cannot be paused") ∧
        (t.canSnooze = false →
          (snoozeTask now uid id m db).1 = Except.error "Task cannot be snoozed")) ∧
    (∀ (now m : Int) (uid id : String) (r : Option String) (b : UpdateBody)
        (db : DB),
        findOneTask db id uid = none →
        (completeTask now uid id r db).1 = Except.error "Task not found" ∧
        (giveUpTask now uid id r db).1 = Except.error "Task not found" ∧
        (pauseTask now uid id db).1 = Except.error "Task not found" ∧
        (resumeTask now uid id db).1 = Except.error "Task not found" ∧
        (snoozeTask now uid id m db).1 = Except.error "Task not found" ∧
        (updateTask b uid id db).1 = Except.error "Task not found") ∧
    (∀ (uid id : String) (db : DB),
        (∀ p ∈ db, p.1 = id → p.2.userId ≠ uid) →
        findOneTask db id uid = none) := by
  refine ⟨?_, ?_, ?_, ?_, ?_, ?_⟩
  · intro now uid id r db e
    exact ⟨routeOp_error_snd _ uid id db e, routeOp_error_snd _ uid id db e⟩
  · intro now m uid id b db e
    exact ⟨routeOp_error_snd _ uid id db e, routeOp_error_snd _ uid id db e,
      routeOp_error_snd _ uid id db e, routeOp_error_snd _ uid id db e⟩
  · intro now m uid id r db t hf hstat
    have hne : t.status ≠ TaskStatus.ongoing ∧ t.status ≠ TaskStatus.paused := by
      rcases hstat with h | h <;> rw [h] <;> exact ⟨by decide, by decide⟩
    refine ⟨?_, ?_, ?_, ?_, ?_⟩
    · exact routeOp_doc_error _ uid id db t _ hf (by simp [completeDoc, hne])
    · exact routeOp_doc_error _ uid id db t _ hf (by simp [giveUpDoc, hne])
    · exact routeOp_doc_error _ uid id db t _ hf (by simp [pauseDoc, hne.1])
    · exact routeOp_doc_error _ uid id db t _ hf
        (by
          have : t.status ≠ TaskStatus.paused := hne.2
          simp [resumeDoc, this])
    · exact routeOp_doc_error _ uid id db t _ hf (by simp [snoozeDoc, hne.1])
  · intro now m uid id db t hf hstat
    constructor
    · intro hcp
      exact routeOp_doc_error _ uid id db t _ hf (by simp [pauseDoc, hstat, hcp])
    · intro hcs
      exact routeOp_doc_error _ uid id db t _ hf (by simp [snoozeDoc, hstat, hcs])
  · intro now m uid id r b db hf
    exact ⟨routeOp_not_found _ uid id db hf, routeOp_not_found _ uid id db hf,
      routeOp_not_found _ uid id db hf, routeOp_not_found _ uid id db hf,
      routeOp_not_found _ uid id db hf, routeOp_not_found _ uid id db hf⟩
  · intro uid id db h
    unfold findOneTask
    have : List.find? (fun p => p.1 == id && p.2.userId == uid) db = none := by
      rw [List.find?_eq_none]
      intro p hp
      simp only [Bool.and_eq_true, beq_iff_eq, not_and]
      intro h1 h2
      exact h p hp h1 h2
    rw [this]
    rfl

/-- C9, witness for the amended theorem: completing an already-completed
task, pausing a non-pausable ongoing task, and operating on a missing id all
fail with the stated errors and leave the store unchanged. -/
theorem c9_failure_semantics_amended_witness :
    (completeTask 7 "u" "t" none
        [("t", { newTask "u" 0 600000 600 false false with
                 status := TaskStatus.completed })]).1 =
      Except.error "Task is not active" ∧
    (pauseTask 7 "u" "t" [("t", newTask "u" 0 600000 600 false false)]).1 =
      Except.error "Task cannot be paused" ∧
    (completeTask 7 "u" "missing" none ([] : DB)).1 =
      Except.error "Task not found" ∧
    findOneTask [("t1", newTask "alice" 0 600000 600 true false)] "t1" "bob" =
      none ∧
    (pauseTask 7 "u" "t" [("t", newTask "u" 0 600000 600 false false)]).2 =
      [("t", newTask "u" 0 600000 600 false false)] :=
  ⟨(c9_failure_semantics_amended.2.2.1 7 0 "u" "t" none
      [("t", { newTask "u" 0 600000 600 false false with
               status := TaskStatus.completed })]
      { newTask "u" 0 600000 600 false false with
        status := TaskStatus.completed }
      (by decide) (Or.inl (by decide))).1,
   (c9_failure_semantics_amended.2.2.2.1 7 0 "u" "t"
      [("t", newTask "u" 0 600000 600 false false)]
      (newTask "u" 0 600000 600 false false)
      (by decide) (by decide)).1 (by decide),
   (c9_failure_semantics_amended.2.2.2.2.1 7 0 "u" "missing" none {} []
      (by decide)).1,
   c9_failure_semantics_amended.2.2.2.2.2 "bob" "t1"
     [("t1", newTask "alice" 0 600000 600 true false)] (by decide),
   (c9_failure_semantics_amended.2.1 7 0 "u" "t" {}
      [("t", newTask "u" 0 600000 600 false false)]
      "Task cannot be paused").1
     ((c9_failure_semantics_amended.2.2.2.1 7 0 "u" "t"
        [("t", newTask "u" 0 600000 600 false false)]
        (newTask "u" 0 600000 600 false false)
        (by decide) (by decide)).1 (by decide))⟩

/-- C7: `resolve("in 30 minutes", t0)` yields duration 1800 s and
`endsAt = t0 + 1800 s`; `resolve("2h", t0)` yields duration 7200 s;
`resolve("garbage text", t0)` is `NotParseable` (given that the external
grammar also fails on it — it contains no digits and no date phrase); and
the creation endpoint rejects any resolved spec whose duration is below 60 s
with the minimum-duration validation error (and an unparseable spec with the
parse error). -/
theorem c7_resolver_round_trip :
    (∀ (chrono : String → Option Int) (t0 : Int),
        parseNaturalLanguage chrono t0 "in 30 minutes" =
          some { endsAt := (t0 : ℚ) + 1800000, duration := 1800 }) ∧
    (∀ (chrono : String → Option Int) (t0 : Int),
        parseNaturalLanguage chrono t0 "2h" =
          some { endsAt := (t0 : ℚ) + 7200000, duration := 7200 }) ∧
    (∀ (chrono : String → Option Int) (t0 : Int),
        chrono "garbage text" = none →
        parseNaturalLanguage chrono t0 "garbage text" = none) ∧
    (∀ (chrono : String → Option Int) (now : Int) (uid title nat : String)
        (cp cs : Bool) (p : ParsedTime),
        parseNaturalLanguage chrono now nat = some p → p.duration < 60 →
        createTaskNatural chrono now uid title nat cp cs =
          Except.error "Task duration must be at least 1 minute") ∧
    (∀ (chrono : String → Option Int) (now : Int) (uid title nat : String)
        (cp cs : Bool),
        parseNaturalLanguage chrono now nat = none →
        createTaskNatural chrono now uid title nat cp cs =
          Except.error "Could not parse natural language time") := by
  refine ⟨?_, ?_, ?_, ?_, ?_⟩
  · intro chrono t0
    have h1 : quickFirst (normalizeInput "in 30 minutes") = none := by decide
    have hh : matchIntUnit 'h' (normalizeInput "in 30 minutes") = none := by decide
    have hm : matchIntUnit 'm' (normalizeInput "in 30 minutes") = some 30 := by
      decide
    simp only [parseNaturalLanguage, h1, durationFirst, durationPatterns,
      matchDurationPattern, hh, hm, Option.map, if_false]
    norm_num
  · intro chrono t0
    have h1 : quickFirst (normalizeInput "2h") = some 7200 := by decide
    simp only [parseNaturalLanguage, h1]
    norm_num
  · intro chrono t0 hchrono
    have h1 : quickFirst (normalizeInput "garbage text") = none := by decide
    have hh : matchIntUnit 'h' (normalizeInput "garbage text") = none := by decide
    have hm : matchIntUnit 'm' (normalizeInput "garbage text") = none := by decide
    have hs : matchIntUnit 's' (normalizeInput "garbage text") = none := by decide
    have hdh : matchDecUnit 'h' (normalizeInput "garbage text") = none := by decide
    have hdm : matchDecUnit 'm' (normalizeInput "garbage text") = none := by decide
    have hrh : matchRelIn 'h' (normalizeInput "garbage text") = none := by decide
    have hrm : matchRelIn 'm' (normalizeInput "garbage text") = none := by decide
    have hrd : matchRelIn 'd' (normalizeInput "garbage text") = none := by decide
    have hfh : matchRelFrom hourFromNowAlts (normalizeInput "garbage text") =
        none := by decide
    have hfm : matchRelFrom minuteFromNowAlts (normalizeInput "garbage text") =
        none := by decide
    have hn : firstNumberRun (normalizeInput "garbage text") = none := by decide
    simp [parseNaturalLanguage, h1, durationFirst, durationPatterns,
      matchDurationPattern, hh, hm, hs, hdh, hdm, hchrono, relativeFirst,
      hrh, hrm, hrd, hfh, hfm, hn]
  · intro chrono now uid title nat cp cs p hp hlt
    simp [createTaskNatural, hp, hlt]
  · intro chrono now uid title nat cp cs hp
    simp [createTaskNatural, hp]

/-- C7, witness: the garbage input with a failing grammar oracle, a 5-second
spec rejected below the 60-second floor, and the unparseable-creation error. -/
theorem c7_resolver_round_trip_witness :
    parseNaturalLanguage (fun _ => none) 0 "garbage text" = none ∧
    createTaskNatural (fun _ => none) 0 "u" "task" "5s" false false =
      Except.error "Task duration must be at least 1 minute" ∧
    createTaskNatural (fun _ => none) 0 "u" "task" "garbage text" false false =
      Except.error "Could not parse natural language time" :=
  ⟨c7_resolver_round_trip.2.2.1 (fun _ => none) 0 rfl,
   c7_resolver_round_trip.2.2.2.1 (fun _ => none) 0 "u" "task" "5s" false false
     { endsAt := (0 : ℚ) + (5 : ℚ) * 1 * 1000, duration := (5 : ℚ) * 1 }
     (by
       have h1 : quickFirst (normalizeInput "5s") = none := by decide
       have hh : matchIntUnit 'h' (normalizeInput "5s") = none := by decide
       have hm : matchIntUnit 'm' (normalizeInput "5s") = none := by decide
       have hs : matchIntUnit 's' (normalizeInput "5s") = some 5 := by decide
       simp only [parseNaturalLanguage, h1, durationFirst, durationPatterns,
         matchDurationPattern, hh, hm, hs, Option.map]
       norm_num)
     (by norm_num),
   c7_resolver_round_trip.2.2.2.2 (fun _ => none) 0 "u" "task" "garbage text"
     false false
     (c7_resolver_round_trip.2.2.1 (fun _ => none) 0 rfl)⟩

/-- Specialization of `List.find?_some` used below (pinning the predicate). -/
theorem find?_pred {α} (p : α → Bool) (l : List α) (a : α)
    (h : List.find? p l = some a) : p a = true :=
  List.find?_some h

/-- Specialization of `List.mem_of_find?_eq_some` used below. -/
theorem find?_mem {α} (p : α → Bool) (l : List α) (a : α)
    (h : List.find? p l = some a) : a ∈ l :=
  List.mem_of_find?_eq_some h

/-- C10: the shorthand table is consulted with a substring check on the
whole normalized input, so any input containing a table key resolves to the
first (in table order) contained key's fixed duration, regardless of
surrounding digits or text: `"21h"` resolves via the embedded key `"1h"` to
3600 s (not 75600 s) and `"130min"` via `"30min"` to 1800 s (not 7800 s). -/
theorem c10_shorthand_substring :
    (∀ (chrono : String → Option Int) (t0 : Int) (input : String) (d : Nat),
        quickFirst (normalizeInput input) = some d →
        parseNaturalLanguage chrono t0 input =
          some { endsAt := (t0 : ℚ) + (d : ℚ) * 1000, duration := (d : ℚ) }) ∧
    (∀ (s : List Char) (d : Nat),
        quickFirst s = some d →
        ∃ kv ∈ quickDurationMap, containsSub kv.1.data s = true ∧ kv.2 = d) ∧
    (∀ (s : List Char),
        (∃ kv ∈ quickDurationMap, containsSub kv.1.data s = true) →
        (quickFirst s).isSome = true) ∧
    (∀ (chrono : String → Option Int) (t0 : Int),
        parseNaturalLanguage chrono t0 "21h" =
          some { endsAt := (t0 : ℚ) + 3600000, duration := 3600 }) ∧
    (∀ (chrono : String → Option Int) (t0 : Int),
        parseNaturalLanguage chrono t0 "130min" =
          some { endsAt := (t0 : ℚ) + 1800000, duration := 1800 }) := by
  refine ⟨?_, ?_, ?_, ?_, ?_⟩
  · intro chrono t0 input d hq
    simp only [parseNaturalLanguage, hq]
  · intro s d hq
    unfold quickFirst at hq
    rw [Option.map_eq_some'] at hq
    obtain ⟨kv, hfind, hval⟩ := hq
    exact ⟨kv,
      find?_mem (fun kv2 => containsSub kv2.1.data s) quickDurationMap kv hfind,
      find?_pred (fun kv2 => containsSub kv2.1.data s) quickDurationMap kv hfind,
      hval⟩
  · intro s h
    unfold quickFirst
    rw [Option.isSome_map']
    rw [List.find?_isSome]
    obtain ⟨kv, hmem, hsub⟩ := h
    exact ⟨kv, hmem, hsub⟩
  · intro chrono t0
    have h1 : quickFirst (normalizeInput "21h") = some 3600 := by decide
    simp only [parseNaturalLanguage, h1]
    norm_num
  · intro chrono t0
    have h1 : quickFirst (normalizeInput "130min") = some 1800 := by decide
    simp only [parseNaturalLanguage, h1]
    norm_num

/-- C10, witness: `"21h"` resolves through the shorthand table to 3600 s. -/
theorem c10_shorthand_substring_witness :
    parseNaturalLanguage (fun _ => none) 5 "21h" =
      some { endsAt := (5 : ℚ) + ((3600 : Nat) : ℚ) * 1000,
             duration := ((3600 : Nat) : ℚ) } :=
  c10_shorthand_substring.1 (fun _ => none) 5 "21h" 3600 (by decide)

/-- `String.append` acts as list append on the character data. -/
theorem string_append_data (a b : String) : (a ++ b).data = a.data ++ b.data := by
  cases a; cases b; rfl

/-- The deadline and 5-minute-warning job ids never collide. -/
theorem jobId_deadline_ne_w5 (t : String) :
    "deadline-" ++ t ≠ "warning-" ++ t ++ "-5m" := by
  intro h
  have h2 := congrArg String.data h
  rw [string_append_data, string_append_data, string_append_data] at h2
  have hd : "deadline-".data = ['d', 'e', 'a', 'd', 'l', 'i', 'n', 'e', '-'] := rfl
  have hw : "warning-".data = ['w', 'a', 'r', 'n', 'i', 'n', 'g', '-'] := rfl
  rw [hd, hw] at h2
  have h3 : some 'd' = some 'w' := by simpa using congrArg List.head? h2
  simp at h3

/-- The deadline and 1-minute-warning job ids never collide. -/
theorem jobId_deadline_ne_w1 (t : String) :
    "deadline-" ++ t ≠ "warning-" ++ t ++ "-1m" := by
  intro h
  have h2 := congrArg String.data h
  rw [string_append_data, string_append_data, string_append_data] at h2
  have hd : "deadline-".data = ['d', 'e', 'a', 'd', 'l', 'i', 'n', 'e', '-'] := rfl
  have hw : "warning-".data = ['w', 'a', 'r', 'n', 'i', 'n', 'g', '-'] := rfl
  rw [hd, hw] at h2
  have h3 : some 'd' = some 'w' := by simpa using congrArg List.head? h2
  simp at h3

/-- The two warning job ids never collide. -/
theorem jobId_w5_ne_w1 (t : String) :
    "warning-" ++ t ++ "-5m" ≠ "warning-" ++ t ++ "-1m" := by
  intro h
  have h2 := congrArg String.data h
  rw [string_append_data, string_append_data, string_append_data,
    string_append_data] at h2
  have h3 := List.append_cancel_left h2
  exact absurd h3 (by decide)

/-- After removing a job id, no job with that id remains. -/
theorem any_queueRemove_self (q : Queue) (jid : String) :
    List.any (queueRemove q jid) (fun x => x.jobId == jid) = false := by
  rw [Bool.eq_false_iff]
  intro hc
  rw [List.any_eq_true] at hc
  obtain ⟨j, hj, hp⟩ := hc
  simp only [queueRemove, List.mem_filter] at hj
  rw [beq_iff_eq] at hp
  have hne := hj.2
  rw [bne_iff_ne] at hne
  exact hne hp

/-- Removing a job cannot make a previously absent id present. -/
theorem any_queueRemove_false (q : Queue) (p : Job → Bool) (jid : String)
    (h : List.any q p = false) : List.any (queueRemove q jid) p = false := by
  rw [Bool.eq_false_iff]
  intro hc
  rw [List.any_eq_true] at hc
  obtain ⟨j, hj, hp⟩ := hc
  simp only [queueRemove, List.mem_filter] at hj
  have htrue : List.any q p = true := List.any_eq_true.mpr ⟨j, hj.1, hp⟩
  rw [h] at htrue
  exact Bool.noConfusion htrue

/-- `cancelTaskReminder` is the nested removal of the four job ids. -/
theorem cancelTaskReminder_unfold (taskId : String) (q : Queue) :
    cancelTaskReminder taskId q =
      queueRemove (queueRemove (queueRemove
        (queueRemove q ("deadline-" ++ taskId))
        ("warning-" ++ taskId ++ "-5m"))
        ("warning-" ++ taskId ++ "-1m"))
        ("pomodoro-" ++ taskId) := rfl

/-- After a cancel, the task's deadline job id is absent. -/
theorem cancel_absent_deadline (taskId : String) (q : Queue) :
    List.any (cancelTaskReminder taskId q)
      (fun x => x.jobId == "deadline-" ++ taskId) = false := by
  rw [cancelTaskReminder_unfold]
  exact any_queueRemove_false _ _ _ (any_queueRemove_false _ _ _
    (any_queueRemove_false _ _ _ (any_queueRemove_self q _)))

/-- After a cancel, the task's 5-minute-warning job id is absent. -/
theorem cancel_absent_w5 (taskId : String) (q : Queue) :
    List.any (cancelTaskReminder taskId q)
      (fun x => x.jobId == "warning-" ++ taskId ++ "-5m") = false := by
  rw [cancelTaskReminder_unfold]
  exact any_queueRemove_false _ _ _ (any_queueRemove_false _ _ _
    (any_queueRemove_self _ _))

/-- After a cancel, the task's 1-minute-warning job id is absent. -/
theorem cancel_absent_w1 (taskId : String) (q : Queue) :
    List.any (cancelTaskReminder taskId q)
      (fun x => x.jobId == "warning-" ++ taskId ++ "-1m") = false := by
  rw [cancelTaskReminder_unfold]
  exact any_queueRemove_false _ _ _ (any_queueRemove_self _ _)

/-- Adding a job whose id is absent appends it. -/
theorem queueAdd_absent (q : Queue) (j : Job)
    (h : List.any q (fun x => x.jobId == j.jobId) = false) :
    queueAdd q j = q ++ [j] := by
  simp [queueAdd, h]

/-- Appending a job with a different id preserves an id's absence. -/
theorem any_append_single (q : Queue) (j : Job) (p : Job → Bool)
    (h1 : List.any q p = false) (h2 : p j = false) :
    List.any (q ++ [j]) p = false := by
  rw [List.any_append, h1]
  simp [h2]

/-- C4, counterexample: scheduling for a deadline that is already 1000 s in
the past still enqueues the deadline job (with its delay clamped to 0, so it
fires immediately) — the claim requires a past-due deadline job to be
skipped, never fired late.  (The past-due warning jobs *are* skipped.) -/
theorem c4_past_due_deadline_enqueued :
    scheduleTaskReminder "t" "u" 0 1000000 [] = [deadlineJob "t" "u" 0 1000000] ∧
    (deadlineJob "t" "u" 0 1000000).delay = 0 ∧
    List.any (scheduleTaskReminder "t" "u" 0 1000000 [])
      (fun j => j.kind == JobKind.deadline) = true := by
  refine ⟨rfl, rfl, rfl⟩

/-- C4, amended: `scheduleForDeadline` first removes the task's existing
jobs (cancel of absent ids is a no-op), then — under the deterministic
per-(task, kind, offset) job ids — *always* enqueues the deadline job with
delay `max(0, endsAt − now)` (a past-due deadline fires immediately instead
of being skipped), and enqueues the 5-minute and 1-minute warning jobs only
when those instants are still strictly in the future. -/
theorem c4_schedule_amended :
    (∀ (taskId userId : String) (endsAt now : Int) (q : Queue),
        scheduleTaskReminder taskId userId endsAt now q =
          cancelTaskReminder taskId q ++ [deadlineJob taskId userId endsAt now] ++
            (if 0 < endsAt - now - 5 * 60 * 1000 then
              [warning5Job taskId userId (endsAt - now - 5 * 60 * 1000) now]
            else []) ++
            (if 0 < endsAt - now - 1 * 60 * 1000 then
              [warning1Job taskId userId (endsAt - now - 1 * 60 * 1000) now]
            else [])) ∧
    (∀ (taskId : String) (q : Queue),
        (∀ j ∈ q, j.jobId ≠ "deadline-" ++ taskId ∧
          j.jobId ≠ "warning-" ++ taskId ++ "-5m" ∧
          j.jobId ≠ "warning-" ++ taskId ++ "-1m" ∧
          j.jobId ≠ "pomodoro-" ++ taskId) →
        cancelTaskReminder taskId q = q) := by
  constructor
  · intro taskId userId endsAt now q
    have hd := cancel_absent_deadline taskId q
    have h5 := cancel_absent_w5 taskId q
    have h1m := cancel_absent_w1 taskId q
    have e2 : queueAdd (cancelTaskReminder taskId q)
        (deadlineJob taskId userId endsAt now) =
        cancelTaskReminder taskId q ++ [deadlineJob taskId userId endsAt now] :=
      queueAdd_absent _ (deadlineJob taskId userId endsAt now) hd
    have habs5 : List.any
        (cancelTaskReminder taskId q ++ [deadlineJob taskId userId endsAt now])
        (fun x => x.jobId ==
          (warning5Job taskId userId (endsAt - now - 5 * 60 * 1000) now).jobId) =
        false := by
      refine any_append_single _ _ _ h5 ?_
      show ("deadline-" ++ taskId == "warning-" ++ taskId ++ "-5m") = false
      rw [beq_eq_false_iff_ne]
      exact jobId_deadline_ne_w5 taskId
    simp only [scheduleTaskReminder]
    rw [e2]
    by_cases hc5 : 0 < endsAt - now - 5 * 60 * 1000
    · have hmax5 : max 0 (endsAt - now - 5 * 60 * 1000) =
          endsAt - now - 5 * 60 * 1000 := by omega
      rw [hmax5, if_pos hc5, if_pos hc5]
      have e3 : queueAdd
          (cancelTaskReminder taskId q ++ [deadlineJob taskId userId endsAt now])
          (warning5Job taskId userId (endsAt - now - 5 * 60 * 1000) now) =
          cancelTaskReminder taskId q ++ [deadlineJob taskId userId endsAt now] ++
            [warning5Job taskId userId (endsAt - now - 5 * 60 * 1000) now] :=
        queueAdd_absent _ _ habs5
      rw [e3]
      by_cases hc1 : 0 < endsAt - now - 1 * 60 * 1000
      · have hmax1 : max 0 (endsAt - now - 1 * 60 * 1000) =
            endsAt - now - 1 * 60 * 1000 := by omega
        have habs1 : List.any
            (cancelTaskReminder taskId q ++
              [deadlineJob taskId userId endsAt now] ++
              [warning5Job taskId userId (endsAt - now - 5 * 60 * 1000) now])
            (fun x => x.jobId ==
              (warning1Job taskId userId (endsAt - now - 1 * 60 * 1000) now).jobId) =
            false := by
          refine any_append_single _ _ _ ?_ ?_
          · refine any_append_single _ _ _ h1m ?_
            show ("deadline-" ++ taskId == "warning-" ++ taskId ++ "-1m") = false
            rw [beq_eq_false_iff_ne]
            exact jobId_deadline_ne_w1 taskId
          · show ("warning-" ++ taskId ++ "-5m" ==
              "warning-" ++ taskId ++ "-1m") = false
            rw [beq_eq_false_iff_ne]
            exact jobId_w5_ne_w1 taskId
        rw [hmax1, if_pos hc1, if_pos hc1, queueAdd_absent _ _ habs1]
      · rw [if_neg (by omega : ¬ 0 < max 0 (endsAt - now - 1 * 60 * 1000)),
          if_neg hc1, List.append_nil]
    · rw [if_neg (by omega : ¬ 0 < max 0 (endsAt - now - 5 * 60 * 1000)),
        if_neg hc5, List.append_nil]
      by_cases hc1 : 0 < endsAt - now - 1 * 60 * 1000
      · have hmax1 : max 0 (endsAt - now - 1 * 60 * 1000) =
            endsAt - now - 1 * 60 * 1000 := by omega
        have habs1 : List.any
            (cancelTaskReminder taskId q ++ [deadlineJob taskId userId endsAt now])
            (fun x => x.jobId ==
              (warning1Job taskId userId (endsAt - now - 1 * 60 * 1000) now).jobId) =
            false := by
          refine any_append_single _ _ _ h1m ?_
          show ("deadline-" ++ taskId == "warning-" ++ taskId ++ "-1m") = false
          rw [beq_eq_false_iff_ne]
          exact jobId_deadline_ne_w1 taskId
        rw [hmax1, if_pos hc1, if_pos hc1, queueAdd_absent _ _ habs1]
      · rw [if_neg (by omega : ¬ 0 < max 0 (endsAt - now - 1 * 60 * 1000)),
          if_neg hc1, List.append_nil]
  · intro taskId q h
    rw [cancelTaskReminder_unfold]
    have r1 : queueRemove q ("deadline-" ++ taskId) = q := by
      apply List.filter_eq_self.mpr
      intro j hj
      simpa using (h j hj).1
    have r2 : queueRemove q ("warning-" ++ taskId ++ "-5m") = q := by
      apply List.filter_eq_self.mpr
      intro j hj
      simpa using (h j hj).2.1
    have r3 : queueRemove q ("warning-" ++ taskId ++ "-1m") = q := by
      apply List.filter_eq_self.mpr
      intro j hj
      simpa using (h j hj).2.2.1
    have r4 : queueRemove q ("pomodoro-" ++ taskId) = q := by
      apply List.filter_eq_self.mpr
      intro j hj
      simpa using (h j hj).2.2.2
    rw [r1, r2, r3, r4]

/-- C4, witness for the amended theorem: cancelling reminders on a queue
holding only an unrelated job leaves it unchanged, and a fresh schedule 10
minutes ahead enqueues the deadline job plus both warnings. -/
theorem c4_schedule_amended_witness :
    cancelTaskReminder "t"
      [{ jobName := "other", jobId := "x", taskId := "z", userId := "u",
         kind := JobKind.pomodoro, delay := 1, scheduledFor := 1 }] =
      [{ jobName := "other", jobId := "x", taskId := "z", userId := "u",
         kind := JobKind.pomodoro, delay := 1, scheduledFor := 1 }] ∧
    scheduleTaskReminder "t" "u" 600000 0 [] =
      cancelTaskReminder "t" [] ++ [deadlineJob "t" "u" 600000 0] ++
        [warning5Job "t" "u" (600000 - 0 - 5 * 60 * 1000) 0] ++
        [warning1Job "t" "u" (600000 - 0 - 1 * 60 * 1000) 0] :=
  ⟨c4_schedule_amended.2 "t" _ (by decide),
   by
    rw [c4_schedule_amended.1 "t" "u" 600000 0 []]
    rw [if_pos (by decide : (0 : Int) < 600000 - 0 - 5 * 60 * 1000),
      if_pos (by decide : (0 : Int) < 600000 - 0 - 1 * 60 * 1000)]⟩

end TaskManager
